import Mathlib

/-
Verification development for the `pkg/log` structured-logging facade of
tenyee/simple-iam.  The Go sources (src/pkg/log/options.go and
src/pkg/log/log.go) are shallowly embedded below: pure data flow is kept,
the zap engine (go.uber.org/zap v1.20.0, the pinned dependency) is modelled
at the granularity the facade observes (level thresholds, bound context
fields, encoder registry, DPanic escalation in development mode).
-/

namespace SimpleIAM.Log

/-- A Go `interface` value as it crosses the logging API: a string, an
integer, an already-typed `zapcore.Field` (constructor `fld`, carrying its
key and value), or any other opaque value (`other`, distinguished by a tag). -/
inductive GoVal where
  | str (s : String)
  | int (n : Int)
  | fld (key : String) (value : GoVal)
  | other (tag : Nat)
deriving DecidableEq, Repr

/-- A structured field as produced by `zap.Any(key, value)`: a key paired
with the original argument value. -/
abbrev Field := String × GoVal

/-- Is the argument an already-typed `zapcore.Field`?  Models the type
assertion `args[i].(zapcore.Field)` in `handleFields`. -/
def GoVal.isFld : GoVal → Bool
  | .fld _ _ => true
  | _ => false

/-- Is the argument a Go `string`?  Models the type assertion
`key.(string)` in `handleFields`. -/
def GoVal.isStr : GoVal → Bool
  | .str _ => true
  | _ => false

/-- A self-diagnostic warning issued by `handleFields` via the engine's
`DPanic` entry point: the warning message together with the diagnostic
field (`zap.Any(key, value)`) attached to it. -/
structure Warning where
  msg : String
  key : String
  value : GoVal
deriving DecidableEq, Repr

def typedFieldWarning (a : GoVal) : Warning :=
  ⟨"strongly-typed Zap Field passed to logr", "zap field", a⟩

def oddWarning (a : GoVal) : Warning :=
  ⟨"odd number of arguments passed as key-value pairs for logging", "ignored key", a⟩

def nonStringKeyWarning (a : GoVal) : Warning :=
  ⟨"non-string key argument passed to logging, ignoring all later arguments", "invalid key", a⟩

/-! zapcore severity levels, as the integers zap defines them. -/

def debugLevel : Int := -1
def infoLevel : Int := 0
def warnLevel : Int := 1
def errorLevel : Int := 2
def dpanicLevel : Int := 3
def panicLevel : Int := 4
def fatalLevel : Int := 5

/-- The state of a `*zap.Logger` as the facade observes it: the enabled
threshold of its core, whether the logger was built in development mode
(this decides whether `DPanic` panics), the bound context fields
accumulated by `With`, and the logger name. -/
structure ZapL where
  threshold : Int
  development : Bool
  context : List Field
  name : String
deriving DecidableEq, Repr

/-- `zap.Logger.With`: a child logger whose core context has the new
fields appended; the receiver is unchanged. -/
def zapWith (l : ZapL) (fs : List Field) : ZapL :=
  { l with context := l.context ++ fs }

/-- A record as written by the engine: the message and the full field
list (bound context fields first, then the call-site fields, the order
zap encodes them in). -/
structure Record where
  msg : String
  fields : List Field
deriving DecidableEq, Repr

/-- The loop of `handleFields` (log.go lines 123-150), translated clause
for clause.  For each element, left to right: an already-typed field
aborts with a diagnostic; a last unpaired element aborts with a
diagnostic; a non-string key aborts with a diagnostic; otherwise a
generic field `(keyString, value)` is emitted and the loop advances by
two.  The result is the converted fields, the diagnostic (if any), and
whether the `DPanic` diagnostic escalated to a panic — which zap does
exactly when the logger is in development mode. -/
def hfLoop (l : ZapL) : List GoVal → List Field × Option Warning × Bool
  | [] => ([], none, false)
  | [a] =>
    if a.isFld then ([], some (typedFieldWarning a), l.development)
    else ([], some (oddWarning a), l.development)
  | a :: v :: rest =>
    if a.isFld then ([], some (typedFieldWarning a), l.development)
    else
      match a with
      | .str k =>
        let r := hfLoop l rest
        ((k, v) :: r.1, r.2)
      | _ => ([], some (nonStringKeyWarning a), l.development)

/-- Result of a `handleFields` call.  `fields` and `warning` are the
value the Go function returns and the diagnostic it logged; `panicked`
records whether the diagnostic escalated to a panic (development-mode
`DPanic`), in which case the Go call unwinds instead of returning. -/
structure HFResult where
  fields : List Field
  warning : Option Warning
  panicked : Bool
deriving DecidableEq, Repr

/-- `handleFields` (log.go lines 116-153): converts alternating key/value
arguments into fields and appends the caller's additional fixed fields
after them; an empty argument list short-circuits to `additional`. -/
def handleFields (l : ZapL) (args : List GoVal) (additional : List Field) : HFResult :=
  if args = [] then ⟨additional, none, false⟩
  else
    let r := hfLoop l args
    ⟨r.1 ++ additional, r.2.1, r.2.2⟩

/-! ## Options (src/pkg/log/options.go) -/

def consoleFormat : String := "console"
def jsonFormat : String := "json"

/-- The `Options` configuration record (options.go lines 19-29). -/
structure Options where
  outputPaths : List String
  errorOutputPaths : List String
  level : String
  format : String
  disableCaller : Bool
  disableStacktrace : Bool
  enableColor : Bool
  development : Bool
  name : String
deriving DecidableEq, Repr

/-- `NewOptions` (options.go lines 32-43): the default configuration. -/
def NewOptions : Options :=
  { outputPaths := ["stdout"]
    errorOutputPaths := ["stderr"]
    level := "info"
    format := consoleFormat
    disableCaller := false
    disableStacktrace := false
    enableColor := false
    development := false
    name := "" }

/-- The exact-text switch of `zapcore.Level.unmarshalText` (dependency
go.uber.org/zap/zapcore, v1.20.0): the recognized spellings of each
severity, with the empty string mapping to info. -/
def levelOfText : String → Option Int
  | "debug" | "DEBUG" => some debugLevel
  | "info" | "INFO" | "" => some infoLevel
  | "warn" | "WARN" => some warnLevel
  | "error" | "ERROR" => some errorLevel
  | "dpanic" | "DPANIC" => some dpanicLevel
  | "panic" | "PANIC" => some panicLevel
  | "fatal" | "FATAL" => some fatalLevel
  | _ => none

/-- Go `strings.ToLower` / `bytes.ToLower` as used on the level and
format strings (ASCII lowering, which is all these comparisons need),
mapped over the characters of the string. -/
def goToLower (s : String) : String :=
  ⟨s.data.map Char.toLower⟩

/-- `zapcore.Level.UnmarshalText`: tries the text verbatim, then its
lowercase form; `none` models the "unrecognized level" error. -/
def unmarshalLevel (s : String) : Option Int :=
  (levelOfText s).orElse fun _ => levelOfText (goToLower s)

/-- A validation error returned by `Options.Validate`, carrying the
offending string it names. -/
inductive VError where
  | unrecognizedLevel (level : String)
  | invalidFormat (format : String)
deriving DecidableEq, Repr

/-- `Options.Validate` (options.go lines 46-60): both checks run
unconditionally, collecting their errors in order (level first). -/
def Options.validate (o : Options) : List VError :=
  (match unmarshalLevel o.level with
    | some _ => []
    | none => [VError.unrecognizedLevel o.level])
  ++ (let format := goToLower o.format
      if format ≠ consoleFormat ∧ format ≠ jsonFormat then [VError.invalidFormat o.format]
      else [])

/-- The `zap.Config` value assembled by `Options.Build` (options.go lines
80-106), field by field as the source populates it.  Note line 83 of the
source: `DisableCaller` is populated from `o.Development`. -/
structure BuiltConfig where
  level : Int
  development : Bool
  disableCaller : Bool
  disableStacktrace : Bool
  encoding : String
  outputPaths : List String
  errorOutputPaths : List String
  colorLevelEncoder : Bool
deriving DecidableEq, Repr

/-- The configuration-assembly part of `Options.Build` (options.go lines
70-106): an unparseable level is coerced to info, and each `zap.Config`
field is filled exactly as the source does. -/
def Options.zapConfigOf (o : Options) : BuiltConfig :=
  { level := (unmarshalLevel o.level).getD infoLevel
    development := o.development
    disableCaller := o.development
    disableStacktrace := o.disableStacktrace
    encoding := o.format
    outputPaths := o.outputPaths
    errorOutputPaths := o.errorOutputPaths
    colorLevelEncoder := o.format == consoleFormat && o.enableColor }

/-- The zap encoder registry (dependency, zap v1.20.0): `newEncoder`
looks the encoding name up by exact, case-sensitive match, and only
"console" and "json" are registered. -/
def encoderRegistered (s : String) : Bool :=
  s == consoleFormat || s == jsonFormat

/-- `zap.Config.Build` as `Options.Build` observes it (dependency): it
first builds the encoder (failing when the encoding name is not
registered), then opens every output and error-output sink, with sink
openability supplied by the oracle `openOk` (the file system). -/
def buildEngine (openOk : String → Bool) (c : BuiltConfig) : Except String BuiltConfig :=
  if encoderRegistered c.encoding = false then
    .error ("no encoder registered for name " ++ c.encoding)
  else if (c.outputPaths ++ c.errorOutputPaths).all openOk = false then
    .error "couldn't open sink"
  else
    .ok c

/-- `Options.Build` (options.go lines 69-116): assembles the config and
constructs the engine, returning an error exactly when the engine cannot
be constructed (on success the Go code installs the logger globally,
modelled by returning the built engine). -/
def Options.build (openOk : String → Bool) (o : Options) : Except String BuiltConfig :=
  buildEngine openOk o.zapConfigOf

/-- Sink oracle for the default sinks: the standard streams always open. -/
def stdSinkOpens (s : String) : Bool :=
  s == "stdout" || s == "stderr"

def Except.isErr : Except String BuiltConfig → Bool
  | .error _ => true
  | .ok _ => false

/-! ## The logger facade (src/pkg/log/log.go) -/

/-- `zap.Logger.check` (dependency): whether `Check(lvl, msg)` returns a
non-nil `CheckedEntry`.  Levels below DPanic return nil when the core is
not enabled for them; DPanic gets an entry when enabled or when the
logger is in development mode (where it will write then panic); Panic
and Fatal always get an entry. -/
def checkPasses (l : ZapL) (lvl : Int) : Bool :=
  if lvl < dpanicLevel then decide (l.threshold ≤ lvl)
  else if lvl = dpanicLevel then decide (l.threshold ≤ lvl) || l.development
  else true

/-- The state of an `infoLogger` (log.go lines 77-80): the held level and
the wrapped engine. -/
structure InfoL where
  level : Int
  log : ZapL
deriving DecidableEq, Repr

/-- What one call to `infoLogger.Infow` did: whether the key/value
conversion (`handleFields`) ran at all, the record written (if any), and
whether the call panicked (a development-mode diagnostic inside
`handleFields`). -/
structure InfowTrace where
  conversionRan : Bool
  written : Option Record
  panicked : Bool
deriving DecidableEq, Repr

/-- `infoLogger.Infow` (log.go lines 96-100): `Check` first; only when it
returns a non-nil entry are the key/value arguments converted (the
`handleFields` call is an argument of the `Write` inside the branch) and
the entry written — the write goes to the attached cores, so a record
appears exactly when the held level is enabled, and not at all if the
conversion panicked first. -/
def infowRun (il : InfoL) (msg : String) (kvs : List GoVal) : InfowTrace :=
  if checkPasses il.log il.level then
    let hf := handleFields il.log kvs []
    { conversionRan := true
      written :=
        if hf.panicked then none
        else if il.log.threshold ≤ il.level then some ⟨msg, il.log.context ++ hf.fields⟩
        else none
      panicked := hf.panicked }
  else
    { conversionRan := false, written := none, panicked := false }

/-- The value `zapLogger.V` returns (log.go lines 258-268): either the
shared disabled no-op singleton `disabledInfoLogger`, or an `infoLogger`
gated at the requested level over the same engine. -/
inductive VInfoLogger where
  | noop
  | active (level : Int) (log : ZapL)
deriving DecidableEq, Repr

/-- `Enabled` on the two variants: the no-op singleton reports false
(log.go line 109), a real `infoLogger` reports true unconditionally
(log.go line 82). -/
def vEnabled : VInfoLogger → Bool
  | .noop => false
  | .active _ _ => true

/-- `Info` on the two variants: the no-op singleton does nothing (log.go
line 110); a real `infoLogger` checks and writes (log.go lines 84-88),
so a record is produced exactly when its level is enabled in the engine. -/
def vInfo : VInfoLogger → String → List Field → Option Record
  | .noop, _, _ => none
  | .active lvl log, msg, fs =>
    if log.threshold ≤ lvl then some ⟨msg, log.context ++ fs⟩ else none

/-- Go conversion of a (64-bit) `int` to the 8-bit `zapcore.Level`:
truncation to the low 8 bits, read back as a signed value. -/
def int8ofInt (n : Int) : Int :=
  (n + 128) % 256 - 128

/-- `zapLogger.V` (log.go lines 258-268): the `int` argument is converted
to the 8-bit `zapcore.Level`; if the engine's core is enabled at that
level the result is an `infoLogger` gated there, otherwise the shared
disabled singleton. -/
def zapV (l : ZapL) (n : Int) : VInfoLogger :=
  let lvl := int8ofInt n
  if l.threshold ≤ lvl then .active lvl l else .noop

/-- `zapLogger.WithValues` (log.go lines 279-282): converts the key/value
arguments with `handleFields` and binds the resulting fields onto a new
child of the underlying engine via `With`; the receiver is unchanged.
When the conversion's development-mode diagnostic panics, the panic
propagates out of `WithValues` and no logger is returned (`none`). -/
def withValues (l : ZapL) (kvs : List GoVal) : Option ZapL :=
  let hf := handleFields l kvs []
  if hf.panicked then none
  else some (zapWith l hf.fields)

/-- A record as emitted by the facade logger `l`: bound context fields
first, then the call-site fields. -/
def logRecord (l : ZapL) (msg : String) (fs : List Field) : Record :=
  ⟨msg, l.context ++ fs⟩

/-! Context enrichment (log.go lines 15-19, 452-475). -/

def KeyRequestID : String := "requestID"
def KeyUsername : String := "username"
def KeyWatcherName : String := "watcher"

/-- A request context restricted to the three well-known keys the facade
reads: each is present with a value or absent. -/
structure Ctx where
  requestID : Option GoVal
  username : Option GoVal
  watcherName : Option GoVal
deriving DecidableEq, Repr

/-- `zapLogger.L` (log.go lines 452-468): clone the logger (shallow copy,
log.go lines 471-475), then for each well-known key present in the
context bind one field `zap.Any(key, value)` via `With`, in the source's
order; absent keys bind nothing. -/
def deriveL (l : ZapL) (ctx : Ctx) : ZapL :=
  let ng := l
  let ng := match ctx.requestID with
    | some v => zapWith ng [(KeyRequestID, v)]
    | none => ng
  let ng := match ctx.username with
    | some v => zapWith ng [(KeyUsername, v)]
    | none => ng
  match ctx.watcherName with
  | some v => zapWith ng [(KeyWatcherName, v)]
  | none => ng

/-- The fields `deriveL` attaches for a given context: one per present
well-known key, in the source's order. -/
def ctxFields (ctx : Ctx) : List Field :=
  (match ctx.requestID with | some v => [(KeyRequestID, v)] | none => [])
  ++ (match ctx.username with | some v => [(KeyUsername, v)] | none => [])
  ++ (match ctx.watcherName with | some v => [(KeyWatcherName, v)] | none => [])

/-- Result of `zapLogger.Write` (log.go lines 270-273): the message bytes
of the single Info-level record the engine wrote (when the info level is
enabled), the reported byte count, and the reported error. -/
structure WriteResult where
  emitted : Option (List UInt8)
  n : Nat
  err : Option String
deriving DecidableEq, Repr

/-- `zapLogger.Write` (log.go lines 270-273): emits the byte slice as the
message of one Info-level record via the engine (which gates it at the
info level) and returns the full length with a nil error. -/
def zapWrite (l : ZapL) (p : List UInt8) : WriteResult :=
  { emitted := if l.threshold ≤ infoLevel then some p else none
    n := p.length
    err := none }

/-- An engine at the default info threshold with no bound fields and
development mode off. -/
def l0 : ZapL := ⟨infoLevel, false, [], ""⟩

/-! ## Theorems -/

/-- The options of C1's failing input: the disable-caller flag set, all
other fields at their defaults (development off in particular). -/
def c1FailingInput : Options := { NewOptions with disableCaller := true }

/-- C1: the claim says `Build` takes each engine setting from the
corresponding Options field — in particular that caller-capture is
disabled exactly when the disable-caller flag is set.  The code instead
populates the engine's `DisableCaller` from the `Development` field
(options.go line 83), so with disable-caller set and development unset
the engine still captures callers, and with development set and
disable-caller unset it does not; the sibling constructor `New` in
log.go line 197 wires the field correctly, so this is a slip in `Build`. -/
theorem c1_disableCaller_bug :
    c1FailingInput.disableCaller = true ∧
    c1FailingInput.development = false ∧
    (Options.zapConfigOf c1FailingInput).disableCaller = false ∧
    (Options.zapConfigOf { NewOptions with development := true }).disableCaller = true := by
  decide

/-- C3: for every Options value whose level string is unrecognized and
whose format string is, case-insensitively, neither "console" nor
"json", `Validate` returns exactly two errors — the one naming the bad
level before the one naming the bad format — with both checks having run
rather than short-circuiting. -/
theorem c3_validate_two_errors (o : Options)
    (hl : unmarshalLevel o.level = none)
    (hc : goToLower o.format ≠ consoleFormat)
    (hj : goToLower o.format ≠ jsonFormat) :
    Options.validate o = [VError.unrecognizedLevel o.level, VError.invalidFormat o.format] := by
  unfold Options.validate
  rw [hl]
  simp [hc, hj]

/-- Witness for C3, at the same input the repository's own test uses:
level "test" and format "test". -/
theorem c3_validate_two_errors_witness :
    Options.validate { NewOptions with level := "test", format := "test" } =
      [VError.unrecognizedLevel "test", VError.invalidFormat "test"] :=
  c3_validate_two_errors _ (by decide) (by decide) (by decide)

/-- The options of C10's witness: a valid level with the mixed-case
format "Console". -/
def c10Options : Options := { NewOptions with format := "Console" }

/-- C10: there is an Options value — valid level, mixed-case format
"Console", default sinks — that `Validate` accepts (it lowercases the
format before comparing) but `Build` rejects, because `Build` passes the
format string verbatim to the engine as its encoding name and the
encoder registry only knows the lowercase names. -/
theorem c10_validate_build_mismatch :
    Options.validate c10Options = [] ∧
    Except.isErr (Options.build stdSinkOpens c10Options) = true ∧
    (Options.zapConfigOf c10Options).encoding = "Console" := by
  decide

/-- The info logger of C2's counterexample: held level info, engine
threshold error (the held level is not enabled). -/
def c2Logger : InfoL := ⟨infoLevel, ⟨errorLevel, false, [], ""⟩⟩

/-- C2 counterexample: the claim says the key/value conversion runs
unconditionally, even when the held level is not enabled.  In the code
the `handleFields` call sits inside the branch taken only when `Check`
returns a non-nil entry (log.go lines 97-98), so with the held level
info and the engine threshold error no conversion work happens at all. -/
theorem c2_conversion_not_unconditional :
    c2Logger.level < c2Logger.log.threshold ∧
    (infowRun c2Logger "m" [GoVal.str "a", GoVal.str "1"]).conversionRan = false := by
  decide

/-- C2 (amended): for every key/value argument list passed to the
level-gated Infow method, the key/value-to-field conversion is performed
exactly when the engine's check for the held level passes — the same
check that gates the write — and when that check fails neither
conversion nor write (nor any panic) happens. -/
theorem c2_conversion_gated (il : InfoL) (msg : String) (kvs : List GoVal) :
    (infowRun il msg kvs).conversionRan = checkPasses il.log il.level ∧
    (checkPasses il.log il.level = false →
      infowRun il msg kvs = ⟨false, none, false⟩) := by
  unfold infowRun
  by_cases h : checkPasses il.log il.level = true
  · simp [h]
  · simp [h]

/-- Witness for C2's amended theorem at a disabled concrete logger. -/
theorem c2_conversion_gated_witness :
    infowRun c2Logger "m" [GoVal.str "a"] = ⟨false, none, false⟩ :=
  (c2_conversion_gated c2Logger "m" [GoVal.str "a"]).2 (by decide)

/-- C4: the conversion used by the *w methods and WithValues processes
the argument list left to right: a string-keyed pair emits the generic
field (keyString, value) and conversion continues on the rest; an
already-typed structured field, a last unpaired element, or a non-string
key stops conversion with a self-diagnostic warning, keeping the fields
gathered so far and processing nothing after it; and the caller's
additional fixed fields are appended after the converted fields in every
case, aborted conversions included. -/
theorem c4_handleFields_conversion :
    (∀ (l : ZapL) (k : String) (v : GoVal) (rest : List GoVal) (add : List Field),
      handleFields l (GoVal.str k :: v :: rest) add =
        ⟨(k, v) :: (handleFields l rest add).fields,
          (handleFields l rest add).warning, (handleFields l rest add).panicked⟩)
    ∧ (∀ (l : ZapL) (a : GoVal) (rest : List GoVal) (add : List Field),
        a.isFld = true →
        handleFields l (a :: rest) add = ⟨add, some (typedFieldWarning a), l.development⟩)
    ∧ (∀ (l : ZapL) (a : GoVal) (add : List Field),
        a.isFld = false →
        handleFields l [a] add = ⟨add, some (oddWarning a), l.development⟩)
    ∧ (∀ (l : ZapL) (a v : GoVal) (rest : List GoVal) (add : List Field),
        a.isFld = false → a.isStr = false →
        handleFields l (a :: v :: rest) add = ⟨add, some (nonStringKeyWarning a), l.development⟩)
    ∧ (∀ (l : ZapL) (add : List Field), handleFields l [] add = ⟨add, none, false⟩) := by
  refine ⟨?_, ?_, ?_, ?_, ?_⟩
  · intro l k v rest add
    cases rest <;> simp [handleFields, hfLoop, GoVal.isFld]
  · intro l a rest add h
    cases rest <;> simp [handleFields, hfLoop, h]
  · intro l a add h
    simp [handleFields, hfLoop, h]
  · intro l a v rest add hf hs
    cases a <;> simp_all [handleFields, hfLoop, GoVal.isFld, GoVal.isStr]
  · intro l add
    simp [handleFields]

/-- Witness for C4 on a concrete list: one good pair, then an unpaired
trailing key, with one additional fixed field still appended. -/
theorem c4_handleFields_conversion_witness :
    handleFields l0 [GoVal.str "a", GoVal.str "1", GoVal.str "b"] [("x", GoVal.str "0")] =
      ⟨[("a", GoVal.str "1"), ("x", GoVal.str "0")],
        some (oddWarning (GoVal.str "b")), false⟩ := by
  have h1 := c4_handleFields_conversion.1 l0 "a" (GoVal.str "1") [GoVal.str "b"]
    [("x", GoVal.str "0")]
  have h2 := c4_handleFields_conversion.2.2.1 l0 (GoVal.str "b") [("x", GoVal.str "0")]
    (by decide)
  rw [h1, h2]
  decide

/-- The development-mode engine of C5's counterexample. -/
def devLogger : ZapL := ⟨infoLevel, true, [], ""⟩

/-- C5 counterexample: the claim says the no-raise guarantee holds under
every configuration.  Development mode is a recognized configuration
field (`Options.Development`, wired into the engine by `New`), and there
the self-diagnostic `DPanic` issued for the odd-length input ["a"]
panics, so the logging call raises to its caller. -/
theorem c5_dev_mode_raises :
    (handleFields devLogger [GoVal.str "a"] []).fields = [] ∧
    (handleFields devLogger [GoVal.str "a"] []).warning = some (oddWarning (GoVal.str "a")) ∧
    (handleFields devLogger [GoVal.str "a"] []).panicked = true := by
  decide

/-- Helper: the conversion loop panics exactly when the engine is in
development mode and a diagnostic warning was issued. -/
theorem hfLoop_panicked (l : ZapL) :
    ∀ args, (hfLoop l args).2.2 = (l.development && (hfLoop l args).2.1.isSome)
  | [] => by simp [hfLoop]
  | [a] => by by_cases h : a.isFld <;> simp [hfLoop, h]
  | a :: v :: rest => by
    by_cases h : a.isFld = true
    · simp [hfLoop, h]
    · simp at h
      cases a with
      | str k => simp [hfLoop, h, hfLoop_panicked l rest]
      | int n => simp [hfLoop, h]
      | fld key value => simp [GoVal.isFld] at h
      | other t => simp [hfLoop, h]

/-- C5 (amended): for every single-element (hence odd-length) key/value
argument list such as ["a"], conversion yields zero converted fields
plus a self-diagnostic warning record; and the call raises to its caller
exactly when a malformed-input warning was issued on a development-mode
engine — in particular it never raises, for any malformed input, under
every configuration with development mode disabled. -/
theorem c5_no_raise_nondev :
    (∀ (l : ZapL) (a : GoVal) (add : List Field), a.isFld = false →
      (handleFields l [a] add).fields = add ∧
      (handleFields l [a] add).warning = some (oddWarning a))
    ∧ (∀ (l : ZapL) (args : List GoVal) (add : List Field),
        (handleFields l args add).panicked =
          (l.development && (handleFields l args add).warning.isSome)) := by
  constructor
  · intro l a add h
    simp [handleFields, hfLoop, h]
  · intro l args add
    cases args with
    | nil => simp [handleFields]
    | cons a rest => simpa [handleFields] using hfLoop_panicked l (a :: rest)

/-- Witness for C5's amended theorem at the input ["a"] on a
non-development engine. -/
theorem c5_no_raise_nondev_witness :
    ((handleFields l0 [GoVal.str "a"] []).fields = [] ∧
      (handleFields l0 [GoVal.str "a"] []).warning = some (oddWarning (GoVal.str "a"))) ∧
    (handleFields l0 [GoVal.str "a"] []).panicked =
      (l0.development && (handleFields l0 [GoVal.str "a"] []).warning.isSome) :=
  ⟨c5_no_raise_nondev.1 l0 (GoVal.str "a") [] (by decide),
    c5_no_raise_nondev.2 l0 [GoVal.str "a"] []⟩

/-- C6 counterexample: the claim quantifies over every integer n, but
`V` converts its `int` argument to the 8-bit `zapcore.Level`, so
`V(-129)` is truncated to level 127: although -129 is below the info
threshold, the result is not the disabled singleton — it reports
`Enabled()` true and emits. -/
theorem c6_truncation_counterexample :
    (-129 : Int) < l0.threshold ∧
    zapV l0 (-129) ≠ VInfoLogger.noop ∧
    vEnabled (zapV l0 (-129)) = true ∧
    vInfo (zapV l0 (-129)) "m" [] = some ⟨"m", []⟩ := by
  decide

/-- C6 (amended): for every integer n in the 8-bit signed range
[-128, 127] (the level argument is truncated to an 8-bit level, so
values outside that range wrap), `V(n)` returns the shared disabled
no-op singleton exactly when the engine does not have level n enabled;
then `Enabled()` is false and `Info` emits no record (and cannot panic),
whenever n is below the configured threshold; otherwise the result is an
info logger gated at level n whose `Enabled()` is true and which emits. -/
theorem c6_v_gating (l : ZapL) (n : Int) (h1 : -128 ≤ n) (h2 : n ≤ 127) :
    (zapV l n = VInfoLogger.noop ↔ ¬ l.threshold ≤ n)
    ∧ (n < l.threshold →
        vEnabled (zapV l n) = false ∧ ∀ msg fs, vInfo (zapV l n) msg fs = none)
    ∧ (l.threshold ≤ n →
        zapV l n = VInfoLogger.active n l ∧ vEnabled (zapV l n) = true ∧
        ∀ msg fs, vInfo (zapV l n) msg fs = some ⟨msg, l.context ++ fs⟩) := by
  have ht : int8ofInt n = n := by
    unfold int8ofInt
    have hmod : (n + 128) % 256 = n + 128 := Int.emod_eq_of_lt (by omega) (by omega)
    omega
  by_cases h : l.threshold ≤ n
  · refine ⟨?_, ?_, ?_⟩
    · simp [zapV, ht, h]
    · intro hlt
      omega
    · intro _
      simp [zapV, ht, h, vEnabled, vInfo]
  · refine ⟨?_, ?_, ?_⟩
    · simp [zapV, ht, h]
    · intro _
      simp [zapV, ht, h, vEnabled, vInfo]
    · intro hle
      exact absurd hle h

/-- Witness for C6's amended theorem at level 1 against the info
threshold. -/
theorem c6_v_gating_witness :
    zapV l0 1 = VInfoLogger.active 1 l0 ∧ vEnabled (zapV l0 1) = true := by
  have h := c6_v_gating l0 1 (by decide) (by decide)
  exact ⟨(h.2.2 (by decide)).1, (h.2.2 (by decide)).2.1⟩

/-- C7 counterexample: the claim quantifies over every logger instance
and every key/value list, but on a development-mode logger the
malformed list ["a"] makes the conversion's self-diagnostic DPanic
panic inside `WithValues` (log.go line 280), so the call unwinds and no
new logger with appended fields is returned at all. -/
theorem c7_withValues_dev_raises :
    withValues devLogger [GoVal.str "a"] = none ∧
    (handleFields devLogger [GoVal.str "a"] []).panicked = true := by
  decide

/-- C7 (amended): for every logger instance and every key/value list
whose conversion does not raise (any list on a non-development logger,
and any well-formed list on every logger), `WithValues` returns a new
logger whose bound field set is the original's fields with the
converted new fields appended (not replacing existing ones), while the
original logger instance is left unchanged: after chained `WithValues`
calls with fresh string pairs the derived logger's records carry all
the added fields and the base logger's subsequent records carry none of
them. -/
theorem c7_withValues (l : ZapL) (kvs : List GoVal) (k v k2 v2 msg : String)
    (hnp : (handleFields l kvs []).panicked = false)
    (h1 : (k, GoVal.str v) ∉ l.context) (h2 : (k2, GoVal.str v2) ∉ l.context) :
    (withValues l kvs).map ZapL.context =
      some (l.context ++ (handleFields l kvs []).fields)
    ∧ (∃ d : ZapL,
        (withValues l [GoVal.str k, GoVal.str v]).bind
          (fun d1 => withValues d1 [GoVal.str k2, GoVal.str v2]) = some d
        ∧ (k, GoVal.str v) ∈ (logRecord d msg []).fields
        ∧ (k2, GoVal.str v2) ∈ (logRecord d msg []).fields)
    ∧ ((k, GoVal.str v) ∉ (logRecord l msg []).fields
      ∧ (k2, GoVal.str v2) ∉ (logRecord l msg []).fields) := by
  refine ⟨?_, ?_, ?_⟩
  · simp [withValues, hnp, zapWith]
  · refine ⟨zapWith (zapWith l [(k, GoVal.str v)]) [(k2, GoVal.str v2)], ?_, ?_, ?_⟩
    · simp [withValues, handleFields, hfLoop, GoVal.isFld, zapWith]
    · simp [zapWith, logRecord]
    · simp [zapWith, logRecord]
  · simpa [logRecord] using ⟨h1, h2⟩

/-- Witness for C7's amended theorem on an empty-context,
non-development base logger: a well-formed list whose conversion does
not panic, and the two-step chain with concrete fresh keys. -/
theorem c7_withValues_witness :
    (withValues l0 [GoVal.str "a", GoVal.str "1"]).map ZapL.context =
      some (l0.context ++ (handleFields l0 [GoVal.str "a", GoVal.str "1"] []).fields)
    ∧ ∃ d : ZapL,
        (withValues l0 [GoVal.str "k", GoVal.str "v"]).bind
          (fun d1 => withValues d1 [GoVal.str "k2", GoVal.str "v2"]) = some d
        ∧ ("k", GoVal.str "v") ∈ (logRecord d "m" []).fields
        ∧ ("k2", GoVal.str "v2") ∈ (logRecord d "m" []).fields :=
  ⟨(c7_withValues l0 [GoVal.str "a", GoVal.str "1"] "k" "v" "k2" "v2" "m"
      (by decide) (by decide) (by decide)).1,
    (c7_withValues l0 [GoVal.str "a", GoVal.str "1"] "k" "v" "k2" "v2" "m"
      (by decide) (by decide) (by decide)).2.1⟩

/-- C8: deriving a logger from a context (`L`) yields a clone of the
original with exactly one additional bound field appended per well-known
key present in the context (request identifier, user name, watcher
name), nothing for absent keys, and the original logger value is
untouched; in particular a context carrying only a request identifier
yields the original's context extended by exactly that one field. -/
theorem c8_deriveFromContext :
    (∀ (l : ZapL) (ctx : Ctx), (deriveL l ctx).context = l.context ++ ctxFields ctx)
    ∧ (∀ (l : ZapL) (v : GoVal),
        deriveL l ⟨some v, none, none⟩ =
          { l with context := l.context ++ [(KeyRequestID, v)] }) := by
  constructor
  · intro l ctx
    obtain ⟨r, u, w⟩ := ctx
    cases r <;> cases u <;> cases w <;> simp [deriveL, ctxFields, zapWith]
  · intro l v
    simp [deriveL, zapWith]

/-- C9: `Write` emits the byte slice as the message of a single
Info-level record through the engine and reports exactly the full input
length with a nil error, for every input including the empty slice (the
record itself appears whenever the engine has the info level enabled,
as with any Info call). -/
theorem c9_write (l : ZapL) (p : List UInt8) :
    (zapWrite l p).n = p.length ∧ (zapWrite l p).err = none ∧
    (l.threshold ≤ infoLevel → (zapWrite l p).emitted = some p) := by
  refine ⟨rfl, rfl, ?_⟩
  intro h
  simp [zapWrite, h]

/-- Witness for C9 at the empty byte slice on the default-threshold
engine. -/
theorem c9_write_witness :
    (zapWrite l0 []).n = 0 ∧ (zapWrite l0 []).err = none ∧
    (zapWrite l0 []).emitted = some [] :=
  ⟨(c9_write l0 []).1, (c9_write l0 []).2.1, (c9_write l0 []).2.2 (by decide)⟩

end SimpleIAM.Log
